import Mathlib

/-!
Verification development for the Encoding-bot repository (src/main.py and
src/config.py).

The repository is a Telegram bot.  `handle_video` (src/main.py, lines 81 to
208) validates an incoming attachment, downloads it to a scratch directory,
shells out to ffmpeg to re-encode it with libx265, uploads the result and
removes the temporary files.  The development below is a shallow embedding of
that handler and of the small helpers around it:

* pure string helpers (`safe_filename`, `fname_looks_like_video`,
  `os.path.basename`, `os.path.splitext`, `os.path.join`, `shlex.quote`,
  the Python substring test `needle in hay`) are translated to functions on
  `List Char` / `String`, because the corresponding Lean core `String`
  functions do not reduce in the kernel;
* the effectful body of `handle_video` becomes a pure function from the
  message contents and an `Env` record (which fixes every outcome the
  outside world can produce: the random uuid hex strings, whether the
  download raises, how the ffmpeg subprocess ends, whether ffmpeg left an
  output file on disk, the output size, whether the upload raises) to an
  `HResult` record listing the chat-transport calls made and whether each of
  the two temporary files still exists when the handler returns;
* the python-telegram-bot `ConversationHandler` wiring of `main` (lines 219
  to 238: entry point `/encode`, state `WAITING_FILE`, `allow_reentry=True`,
  handlers returning `ConversationHandler.END`) becomes the per-user step
  function `stepUser` on an `Option Nat` conversation state;
* the `send_try_except` decorator (lines 44 to 57) becomes a function on a
  `PyOutcome` value describing how the wrapped handler body ended.

Status-message edits are modelled as always succeeding: in the source every
`edit_text` on an error path is wrapped in `try: ... except Exception: pass`,
so an edit failure never changes control flow, file state, or the other
messages sent.  The one-decimal megabyte figure interpolated into the
oversize warning is rendered with round-half-up integer arithmetic; the
source formats an IEEE double with `:.1f` (round half to even), which agrees
except on exact half-tie renderings, and no theorem below depends on those
digits.
-/

namespace EncodingBot

/-- The single-quote character, written via its code point. -/
def sq : Char := Char.ofNat 39

/-- The double-quote character, written via its code point. -/
def dq : Char := Char.ofNat 34

/-- A string holding one single-quote character. -/
def apoStr : String := String.mk [sq]

/-- Boolean prefix test on character lists. -/
def isPrefixB : List Char → List Char → Bool
  | [], _ => true
  | _ :: _, [] => false
  | a :: as, b :: bs => a = b && isPrefixB as bs

/-- Boolean contiguous-sublist test on character lists. -/
def isSubListB (needle : List Char) : List Char → Bool
  | [] => isPrefixB needle []
  | b :: bs => isPrefixB needle (b :: bs) || isSubListB needle bs

/-- Embedding of the Python substring test `needle in hay`. -/
def strContains (hay needle : String) : Bool :=
  isSubListB needle.data hay.data

/-- Boolean suffix test on character lists. -/
def isSuffixB (needle l : List Char) : Bool :=
  isPrefixB needle.reverse l.reverse

/-- Embedding of `str.endswith` for our ASCII suffixes. -/
def strEndsWith (s suffixStr : String) : Bool :=
  isSuffixB suffixStr.data s.data

/-- ASCII lower-casing of one character, as `str.lower` acts on the ASCII
range (every string this program lower-cases is a filename). -/
def lowChar (c : Char) : Char :=
  if 65 ≤ c.toNat ∧ c.toNat ≤ 90 then Char.ofNat (c.toNat + 32) else c

/-- Embedding of `str.lower`. -/
def strLower (s : String) : String :=
  String.mk (s.data.map lowChar)

/-- Index of the last occurrence of `c` in the list, if any (the value of
Python `s.rfind(c)` when it is not `-1`). -/
def rlast (c : Char) : List Char → Option Nat
  | [] => none
  | a :: as =>
    match rlast c as with
    | some i => some (i + 1)
    | none => if a = c then some 0 else none

/-- Embedding of `posixpath.basename`: everything after the last slash. -/
def pyBasename (s : String) : String :=
  match rlast '/' s.data with
  | some i => String.mk (s.data.drop (i + 1))
  | none => s

/-- Embedding of the root part of `posixpath.splitext`: cut at the last dot
of the final path component, unless every character of that component before
the dot is itself a dot (so `.bashrc` keeps its dot). -/
def splitextRoot (s : String) : String :=
  let l := s.data
  let sepIdx : Int :=
    match rlast '/' l with
    | some i => (i : Int)
    | none => -1
  match rlast '.' l with
  | none => s
  | some d =>
    if (d : Int) > sepIdx then
      let start := (sepIdx + 1).toNat
      if ((l.drop start).take (d - start)).any (fun ch => ch ≠ '.') then
        String.mk (l.take d)
      else s
    else s

/-- Embedding of `posixpath.join` for the two-argument calls in the source. -/
def pyJoin (a b : String) : String :=
  if isPrefixB "/".data b.data then b
  else if a = "" || isSuffixB "/".data a.data then a ++ b
  else a ++ "/" ++ b

/-- Characters `shlex.quote` leaves unquoted: word characters plus the
punctuation at-sign, percent, plus, equals, colon, comma, dot, slash and
hyphen, with ASCII semantics. -/
def shSafeChar (c : Char) : Bool :=
  c.isAlpha || c.isDigit || c = '_' || c = '@' || c = '%' || c = '+' ||
    c = '=' || c = ':' || c = ',' || c = '.' || c = '/' || c = '-'

/-- How `shlex.quote` expands one character inside the quoted form: a single
quote becomes the five-character escape, anything else stands for itself. -/
def shQuoteChar (c : Char) : String :=
  if c = sq then String.mk [sq, dq, sq, dq, sq] else String.mk [c]

/-- Embedding of `shlex.quote` (used on both paths and both encoder
parameters at src/main.py lines 124 to 128). -/
def shlexQuote (s : String) : String :=
  if s = "" then String.mk [sq, sq]
  else if s.data.all shSafeChar then s
  else String.mk [sq] ++ String.join (s.data.map shQuoteChar) ++ String.mk [sq]

/-- Embedding of `fname_looks_like_video` (src/main.py lines 210 to 212). -/
def fname_looks_like_video (name : String) : Bool :=
  let n := strLower name
  strEndsWith n ".mp4" || strEndsWith n ".mkv" || strEndsWith n ".mov" ||
    strEndsWith n ".avi" || strEndsWith n ".webm" || strEndsWith n ".ts" ||
    strEndsWith n ".m4v"

/-- Embedding of `safe_filename` (src/main.py lines 75 to 78); the uuid hex
produced by `uuid.uuid4().hex` is passed in explicitly. -/
def safe_filename (uuidHex : String) (original_name : String) : String :=
  uuidHex ++ "_" ++ pyBasename original_name

/-- Embedding of the ffmpeg command string built at src/main.py lines 124 to
128 (three adjacent f-string literals; the literals below merge the trailing
space of each line with the start of the next). -/
def ffmpeg_cmd (in_path crf preset out_path : String) : String :=
  "ffmpeg -y -hide_banner -loglevel error -i " ++ shlexQuote in_path ++
    " -c:v libx265 -crf " ++ shlexQuote crf ++
    " -preset " ++ shlexQuote preset ++
    " -c:a copy -c:s copy " ++ shlexQuote out_path

/-- The subprocess timeout passed at src/main.py line 133 (`timeout=60*60`,
in seconds). -/
def encodeTimeoutSeconds : Nat := 60 * 60

/-- Embedding of the oversize test at src/main.py lines 179 to 180:
`os.path.getsize(out_path) / (1024*1024) > 49.5`.  The comparison is stated
over the integers as `2 * bytes > 99 * 1024 * 1024`; for every file size
below 2 to the power 52 bytes the double division by 1048576 is exact and
49.5 is an exact double, so this equals the float test of the source. -/
def exceedsCeiling (bytes : Nat) : Bool :=
  decide (99 * 1024 * 1024 < 2 * bytes)

/-- The rendered one-decimal megabyte count interpolated as `{size_mb:.1f}`
into the oversize warning (round half up; see the file comment). -/
def mbOneDecimal (bytes : Nat) : String :=
  let t := (10 * bytes + 524288) / 1048576
  toString (t / 10) ++ "." ++ toString (t % 10)

/-- The conversation-state constant `WAITING_FILE` (src/main.py line 36). -/
def WAITING_FILE : Nat := 1

/-- Message text of src/main.py line 96. -/
def msgRejectDoc : String :=
  "❌ That doesn" ++ apoStr ++ "t look like a video file. Please send a mp4/mkv video."

/-- Message text of src/main.py line 101. -/
def msgRejectNoVideo : String :=
  "❌ No video detected. Send an actual video file."

/-- Message text of src/main.py line 109. -/
def msgDownloading : String :=
  "⬇️ Downloading your file... (this may take a while)"

/-- Message head of src/main.py line 115 (the exception text follows). -/
def msgDownloadFailedHead : String := "❌ Failed to download file: "

/-- Message text of src/main.py line 130. -/
def msgEncodingStarted : String :=
  "🔹 Encoding started... (this can be slow on mobile)"

/-- Message text of src/main.py line 139. -/
def msgEncodeFailed : String :=
  "❌ Encoding failed. FFmpeg returned an error."

/-- Head of the diagnostic reply of src/main.py line 141. -/
def msgFfmpegErrHead : String := "FFmpeg error (short):\n"

/-- Message text of src/main.py line 151. -/
def msgTimeout : String :=
  "❌ Encoding timed out (took too long). Consider increasing timeout or using a faster preset."

/-- Message head of src/main.py line 160 (the exception text follows). -/
def msgUnexpectedHead : String := "❌ Unexpected error: "

/-- Message text of src/main.py line 170. -/
def msgNoOutput : String :=
  "❌ Encoding finished but output file not found."

/-- Message text of src/main.py lines 183 to 184 (oversize warning). -/
def msgOversize (bytes : Nat) : String :=
  "⚠️ Encoding finished but file is " ++ mbOneDecimal bytes ++
    " MB. Bots may not be able to upload >50MB.\nYou can download the file from device storage or use a user account bot."

/-- Message text of src/main.py line 189. -/
def msgUploading : String := "⚙️ Uploading encoded file..."

/-- Caption of src/main.py line 191. -/
def msgCaption : String := "✅ Here is your encoded video."

/-- Message text of src/main.py line 192. -/
def msgDone : String := "✅ Done! Encoded file sent. Cleaning up..."

/-- Message head of src/main.py line 196 (the exception text follows). -/
def msgUploadFailedHead : String := "❌ Failed to upload encoded file: "

/-- Message head of src/main.py line 52 in `send_try_except`. -/
def msgErrHead : String := "❌ An error occurred: "

/-- Message text of src/main.py lines 70 to 72 (`encode_command`). -/
def msgEncodeAsk : String :=
  "📥 Please send the video file you want to encode (reply to this message with the file).\nSupported: mp4, mkv, other video documents."

/-- Message text of src/main.py line 216 (`cancel`). -/
def msgCancelled : String := "Cancelled. Use /encode to start again."

/-- A video attachment as the handler reads it (`msg.video`). -/
structure VideoAtt where
  file_name : Option String
  deriving Repr, DecidableEq

/-- A document attachment as the handler reads it (`msg.document`). -/
structure DocAtt where
  mime_type : Option String
  file_name : Option String
  deriving Repr, DecidableEq

/-- The parts of an incoming message that `handle_video` inspects. -/
structure Msg where
  video : Option VideoAtt
  document : Option DocAtt
  deriving Repr, DecidableEq

/-- How the `subprocess.run` call of src/main.py lines 132 to 134 ends:
normally with an exit code and captured stderr, by `TimeoutExpired`, or by
some other exception. -/
inductive EncodeOutcome where
  | finished (returncode : Int) (stderr : String)
  | timedOut
  | raised (e : String)
  deriving Repr, DecidableEq

/-- Everything the outside world decides during one run of `handle_video`:
the scratch directory, the three uuid hex strings drawn, whether the
download raises (`some e` is the exception text), how the encode subprocess
ends, whether an output file is on disk after the encode step (ffmpeg may
leave a partial file even on failure), its size in bytes, and whether the
upload raises. -/
structure Env where
  tmpDir : String
  uuidFname : String
  uuidIn : String
  uuidOut : String
  download : Option String
  encode : EncodeOutcome
  encodeWroteOut : Bool
  outSizeBytes : Nat
  upload : Option String
  deriving Repr, DecidableEq

/-- One chat-transport call made by the handler. -/
inductive Eff where
  | reply (text : String)
  | downloadTo (path : String)
  | editStatus (text : String)
  | replyDocument (filename : String) (caption : String)
  deriving Repr, DecidableEq

/-- What one run of `handle_video` did: the transport calls in order, whether
the input and output temporary files still exist on return, and whether a
job was started (the handler got past validation and began downloading).
Every run returns `ConversationHandler.END`; that constant return value is
modelled by `stepUser` below clearing the conversation state. -/
structure HResult where
  effects : List Eff
  inFile : Bool
  outFile : Bool
  jobStarted : Bool
  deriving Repr, DecidableEq

/-- The input temporary path built at src/main.py line 104. -/
def inPathOf (env : Env) (fname : String) : String :=
  pyJoin env.tmpDir (safe_filename env.uuidIn fname)

/-- The output file name built at src/main.py line 105. -/
def outNameOf (fname : String) : String :=
  splitextRoot fname ++ "_encoded.mp4"

/-- The output temporary path built at src/main.py line 106. -/
def outPathOf (env : Env) (fname : String) : String :=
  pyJoin env.tmpDir (safe_filename env.uuidOut (outNameOf fname))

/-- Embedding of `handle_video` after validation has accepted the file name
`fname` (src/main.py lines 104 to 208).  Mirrors the source path by path:
download failure removes the input file if present; a non-zero ffmpeg exit,
a timeout, or an unexpected exception removes only the input file; a missing
output file removes the input file; the upload stage runs inside
`try/finally`, whose `finally` removes both files. -/
def handleAccepted (fname : String) (env : Env) : HResult :=
  let in_path := inPathOf env fname
  let out_path := outPathOf env fname
  let effs := [Eff.reply msgDownloading, Eff.downloadTo in_path]
  match env.download with
  | some e =>
    { effects := effs ++ [Eff.editStatus (msgDownloadFailedHead ++ e)],
      inFile := false, outFile := false, jobStarted := true }
  | none =>
    let effs := effs ++ [Eff.editStatus msgEncodingStarted]
    match env.encode with
    | EncodeOutcome.finished rc stderr =>
      if rc ≠ 0 then
        let s := String.mk (stderr.data.take 1000)
        let shortened := if s = "" then "No error details" else s
        { effects := effs ++ [Eff.editStatus msgEncodeFailed,
            Eff.reply (msgFfmpegErrHead ++ shortened)],
          inFile := false, outFile := env.encodeWroteOut, jobStarted := true }
      else if env.encodeWroteOut = false then
        { effects := effs ++ [Eff.editStatus msgNoOutput],
          inFile := false, outFile := false, jobStarted := true }
      else
        let effs := effs ++
          [if exceedsCeiling env.outSizeBytes then
             Eff.editStatus (msgOversize env.outSizeBytes)
           else Eff.editStatus msgUploading,
           Eff.replyDocument (pyBasename out_path) msgCaption]
        match env.upload with
        | none =>
          { effects := effs ++ [Eff.editStatus msgDone],
            inFile := false, outFile := false, jobStarted := true }
        | some e =>
          { effects := effs ++ [Eff.editStatus (msgUploadFailedHead ++ e)],
            inFile := false, outFile := false, jobStarted := true }
    | EncodeOutcome.timedOut =>
      { effects := effs ++ [Eff.editStatus msgTimeout],
        inFile := false, outFile := env.encodeWroteOut, jobStarted := true }
    | EncodeOutcome.raised e =>
      { effects := effs ++ [Eff.editStatus (msgUnexpectedHead ++ e)],
        inFile := false, outFile := env.encodeWroteOut, jobStarted := true }

/-- Embedding of `handle_video` (src/main.py lines 81 to 208): the
attachment dispatch and validation of lines 87 to 102, then the accepted
path `handleAccepted`. -/
def handle_video (msg : Msg) (env : Env) : HResult :=
  match msg.video with
  | some v =>
    handleAccepted (v.file_name.getD ("video_" ++ env.uuidFname ++ ".mp4")) env
  | none =>
    match msg.document with
    | some d =>
      let mime := d.mime_type.getD ""
      if !(strContains mime "video" ||
            fname_looks_like_video (d.file_name.getD "")) then
        { effects := [Eff.reply msgRejectDoc],
          inFile := false, outFile := false, jobStarted := false }
      else
        handleAccepted (d.file_name.getD ("video_" ++ env.uuidFname ++ ".mkv")) env
    | none =>
      { effects := [Eff.reply msgRejectNoVideo],
        inFile := false, outFile := false, jobStarted := false }

/-- An inbound event for one user, as dispatched by the
`ConversationHandler` built in `main` (src/main.py lines 223 to 230). -/
inductive Event where
  | encodeCmd
  | cancelCmd
  | media (msg : Msg) (env : Env)

/-- One dispatch step of the `ConversationHandler` for a single user.  The
state is `none` (no active conversation) or `some WAITING_FILE`.  Because
the handler is built with `allow_reentry=True`, the entry point `/encode`
fires in every state and `encode_command` returns `WAITING_FILE`; a media
message is delivered to `handle_video` only in state `WAITING_FILE`, and
`handle_video` always returns `ConversationHandler.END`, clearing the
state; `/cancel` is a fallback, active only inside a conversation.  The
`Bool` component reports whether this step started an encode job. -/
def stepUser : Option Nat → Event → Option Nat × List Eff × Bool
  | _, Event.encodeCmd => (some WAITING_FILE, [Eff.reply msgEncodeAsk], false)
  | some _, Event.cancelCmd => (none, [Eff.reply msgCancelled], false)
  | none, Event.cancelCmd => (none, [], false)
  | some _, Event.media m env =>
    let r := handle_video m env
    (none, r.effects, r.jobStarted)
  | none, Event.media _ _ => (none, [], false)

/-- Run a list of events for one user, collecting the transport calls and
counting the encode jobs started. -/
def runEvents : Option Nat → List Event → Option Nat × List Eff × Nat
  | st, [] => (st, [], 0)
  | st, ev :: evs =>
    let r1 := stepUser st ev
    let r2 := runEvents r1.1 evs
    (r2.1, r1.2.1 ++ r2.2.1, (if r1.2.2 then 1 else 0) + r2.2.2)

/-- How a piece of Python code ends: with a value, or by raising an
exception carrying the given text. -/
inductive PyOutcome (α : Type) where
  | ok (a : α)
  | exc (e : String)
  deriving Repr

/-- Embedding of the `send_try_except` decorator (src/main.py lines 44 to
57) applied to a handler invocation whose body ends as `body`: a raised
exception is caught and answered with the generic error reply; if that
reply call itself raises, the failure is only logged (the two match arms
are identical because `except Exception` around the notification changes
nothing observable here).  The wrapper itself always returns. -/
def send_try_except {α : Type} (body : PyOutcome α)
    (replyCall : String → PyOutcome Unit) : Option α × List Eff :=
  match body with
  | PyOutcome.ok a => (some a, [])
  | PyOutcome.exc e =>
    let text := msgErrHead ++ e
    match replyCall text with
    | PyOutcome.ok _ => (none, [Eff.reply text])
    | PyOutcome.exc _ => (none, [Eff.reply text])

/-- A concrete environment used to instantiate theorems with hypotheses. -/
def baseEnv : Env :=
  { tmpDir := "tmp", uuidFname := "u0", uuidIn := "u1", uuidOut := "u2",
    download := none, encode := EncodeOutcome.finished 0 "",
    encodeWroteOut := true, outSizeBytes := 0, upload := none }

/-- A video message carrying the file name a.mp4. -/
def vidMsgA : Msg := { video := some { file_name := some "a.mp4" }, document := none }

/-- An environment in which the download succeeds and the ffmpeg subprocess
times out after having already created the output file on disk. -/
def c1Env : Env :=
  { tmpDir := "tmp", uuidFname := "u0", uuidIn := "u1", uuidOut := "u2",
    download := none, encode := EncodeOutcome.timedOut,
    encodeWroteOut := true, outSizeBytes := 0, upload := none }

/-- A document message whose mime type and file name both fail the video
check. -/
def c2Doc : Msg :=
  { video := none,
    document := some { mime_type := some "application/pdf", file_name := some "file.pdf" } }

/-- A 1001-character diagnostic text. -/
def c6Stderr : String := String.mk (List.replicate 1001 'x')

/-- An environment override for the successful-encode claims: the download
succeeds, ffmpeg exits with code zero, the output file exists and has the
given size; everything else, including the upload outcome, is inherited. -/
def env7 (env : Env) (bytes : Nat) : Env :=
  { env with
    download := none
    encode := EncodeOutcome.finished 0 ""
    encodeWroteOut := true
    outSizeBytes := bytes }

/-- Substring-of relation on strings, stated over their character lists. -/
def hasSubStr (hay needle : String) : Prop :=
  needle.data <:+: hay.data

/-- Starts-with relation on strings, stated over their character lists. -/
def startsStr (hay p : String) : Prop :=
  p.data <+: hay.data

lemma hasSubStr_appL (hay t needle : String) (h : hasSubStr hay needle) :
    hasSubStr (hay ++ t) needle := by
  obtain ⟨a, b, hab⟩ := h
  exact ⟨a, b ++ t.data, by rw [String.data_append, ← hab]; simp⟩

lemma startsStr_appL (hay t p : String) (h : startsStr hay p) :
    startsStr (hay ++ t) p := by
  obtain ⟨b, hb⟩ := h
  exact ⟨b ++ t.data, by rw [String.data_append, ← hb]; simp⟩

lemma handleAccepted_jobStarted (fname : String) (env : Env) :
    (handleAccepted fname env).jobStarted = true := by
  unfold handleAccepted
  cases env.download with
  | some e => rfl
  | none =>
    cases env.encode with
    | finished rc stderr =>
      by_cases h : rc ≠ 0
      · simp only [if_pos h]
      · simp only [if_neg h]
        by_cases h2 : env.encodeWroteOut = false
        · simp only [if_pos h2]
        · simp only [if_neg h2]
          cases env.upload <;> rfl
    | timedOut => rfl
    | raised e => rfl

lemma hasSubStr_tail (A B q X Y : String) (hsplit : B.data = Y.data ++ X.data) :
    hasSubStr ((A ++ B) ++ q) (X ++ q) := by
  refine ⟨A.data ++ Y.data, [], ?_⟩
  simp [String.data_append, hsplit, List.append_assoc]

lemma hasSubStr_tail2 (B q X Y : String) (hsplit : B.data = Y.data ++ X.data) :
    hasSubStr (B ++ q) (X ++ q) := by
  refine ⟨Y.data, [], ?_⟩
  simp [String.data_append, hsplit, List.append_assoc]

/-- Claim C3.  For every input path, output path, quality factor and preset,
the constructed ffmpeg command starts with the overwrite flag, contains the
error-only loglevel flag, names the input path shell-quoted after the input
flag, selects the libx265 video codec with the shell-quoted quality factor,
passes the shell-quoted preset, and ends with the audio and subtitle
stream-copy flags followed by the shell-quoted output path. -/
theorem C3_ffmpeg_command_structure (in_path crf preset out_path : String) :
    startsStr (ffmpeg_cmd in_path crf preset out_path) "ffmpeg -y "
    ∧ hasSubStr (ffmpeg_cmd in_path crf preset out_path) " -loglevel error "
    ∧ hasSubStr (ffmpeg_cmd in_path crf preset out_path) ("-i " ++ shlexQuote in_path)
    ∧ hasSubStr (ffmpeg_cmd in_path crf preset out_path)
        ("-c:v libx265 -crf " ++ shlexQuote crf)
    ∧ hasSubStr (ffmpeg_cmd in_path crf preset out_path)
        (" -preset " ++ shlexQuote preset)
    ∧ hasSubStr (ffmpeg_cmd in_path crf preset out_path)
        (" -c:a copy -c:s copy " ++ shlexQuote out_path) := by
  refine ⟨?_, ?_, ?_, ?_, ?_, ?_⟩
  · simp only [ffmpeg_cmd]
    iterate 7 apply startsStr_appL
    exact ⟨("-hide_banner -loglevel error -i " : String).data, by decide⟩
  · simp only [ffmpeg_cmd]
    iterate 7 apply hasSubStr_appL
    exact ⟨("ffmpeg -y -hide_banner" : String).data, ("-i " : String).data, by decide⟩
  · simp only [ffmpeg_cmd]
    iterate 6 apply hasSubStr_appL
    exact hasSubStr_tail2 _ _ _ "ffmpeg -y -hide_banner -loglevel error " (by decide)
  · simp only [ffmpeg_cmd]
    iterate 4 apply hasSubStr_appL
    exact hasSubStr_tail _ _ _ _ " " (by decide)
  · simp only [ffmpeg_cmd]
    iterate 2 apply hasSubStr_appL
    exact hasSubStr_tail _ _ _ _ "" (by decide)
  · simp only [ffmpeg_cmd]
    exact hasSubStr_tail _ _ _ _ "" (by decide)

/-- Claim C1.  The claim states that after `handle_video` returns, neither
temporary file remains, on every exit path.  The code violates this: when
the encode step times out (or exits non-zero) after ffmpeg has already
created the output file, the handler removes only the input file (src/main.py
lines 149 to 156 remove `in_path` alone) and returns, so the output file is
still on disk even though the job has reached its terminal state.  This
theorem evaluates the handler at such a run: the job ends with the timeout
status edit, the input file is gone, but the output file survives. -/
theorem C1_output_file_survives_timeout :
    (handle_video vidMsgA c1Env).outFile = true ∧
    (handle_video vidMsgA c1Env).inFile = false ∧
    (handle_video vidMsgA c1Env).effects =
      [Eff.reply msgDownloading, Eff.downloadTo (inPathOf c1Env "a.mp4"),
       Eff.editStatus msgEncodingStarted, Eff.editStatus msgTimeout] :=
  ⟨rfl, rfl, rfl⟩

/-- Claim C4.  At most one encode job is active per user: repeating the
begin command while already pending only re-prompts and leaves the user in
the same waiting state, and two rapid begin commands followed by one file
upload start exactly as many jobs as one begin command followed by that
upload, namely one when the handler accepts the file and zero otherwise
(never two). -/
theorem C4_one_job_per_user (m : Msg) (env : Env) :
    stepUser (some WAITING_FILE) Event.encodeCmd =
      (some WAITING_FILE, [Eff.reply msgEncodeAsk], false)
    ∧ (runEvents none [Event.encodeCmd, Event.encodeCmd, Event.media m env]).2.2
        = (runEvents none [Event.encodeCmd, Event.media m env]).2.2
    ∧ (runEvents none [Event.encodeCmd, Event.encodeCmd, Event.media m env]).2.2
        = (if (handle_video m env).jobStarted then 1 else 0) := by
  refine ⟨rfl, ?_, ?_⟩ <;> simp [runEvents, stepUser]

/-- Claim C5.  The encode invocation is bounded by a one-hour timeout
(`timeout=60*60` seconds), and when it expires the handler edits the status
message to the timeout text, deletes the input file, and returns normally:
the run below is the handler evaluated on an arbitrary video message in an
arbitrary environment whose encode step times out, and it is a plain value,
not an exception. -/
theorem C5_timeout_is_one_hour_and_handled :
    encodeTimeoutSeconds = 3600 ∧
    ∀ (fname : String) (env : Env),
      handle_video { video := some { file_name := some fname }, document := none }
          { env with download := none, encode := EncodeOutcome.timedOut } =
        { effects := [Eff.reply msgDownloading,
            Eff.downloadTo
              (inPathOf { env with download := none, encode := EncodeOutcome.timedOut } fname),
            Eff.editStatus msgEncodingStarted, Eff.editStatus msgTimeout],
          inFile := false, outFile := env.encodeWroteOut, jobStarted := true } :=
  ⟨rfl, fun _ _ => rfl⟩

/-- Claim C7.  After a successful encode with the output file present, the
handler edits the status to the oversize warning exactly when the size test
exceeds the 49.5 MB ceiling and to the plain uploading text otherwise, and
in both cases the upload attempt (the `reply_document` call) follows that
edit; a 60 MB output exceeds the ceiling and a 10 MB output does not. -/
theorem C7_oversize_warning_then_upload :
    (∀ (bytes : Nat) (fname : String) (env : Env),
      (handle_video { video := some { file_name := some fname }, document := none }
          (env7 env bytes)).effects =
        [Eff.reply msgDownloading,
         Eff.downloadTo (inPathOf (env7 env bytes) fname),
         Eff.editStatus msgEncodingStarted,
         (if exceedsCeiling bytes then Eff.editStatus (msgOversize bytes)
          else Eff.editStatus msgUploading),
         Eff.replyDocument (pyBasename (outPathOf (env7 env bytes) fname)) msgCaption,
         (match env.upload with
          | none => Eff.editStatus msgDone
          | some e => Eff.editStatus (msgUploadFailedHead ++ e))])
    ∧ exceedsCeiling (60 * 1024 * 1024) = true
    ∧ exceedsCeiling (10 * 1024 * 1024) = false := by
  refine ⟨?_, by decide, by decide⟩
  intro bytes fname env
  cases h : env.upload <;> simp [handle_video, handleAccepted, h, env7, inPathOf, outPathOf]

/-- Claim C8.  For every decorated handler body and every exception raised
inside it, `send_try_except` catches the exception and converts it into the
single generic user-visible error reply, and the wrapper itself returns a
plain value whatever the body and the notification call do, so nothing
propagates to the event-handling loop.  The five decorated handlers
(`start`, `help_cmd`, `encode_command`, `handle_video`, `cancel`) differ
only in the body outcome, which is universally quantified here. -/
theorem C8_handler_exceptions_contained :
    ∀ (α : Type) (body : PyOutcome α) (replyCall : String → PyOutcome Unit),
      (send_try_except body replyCall).1
          = (match body with
             | PyOutcome.ok a => some a
             | PyOutcome.exc _ => none)
      ∧ (send_try_except body replyCall).2
          = (match body with
             | PyOutcome.ok _ => []
             | PyOutcome.exc e => [Eff.reply (msgErrHead ++ e)]) := by
  intro α body replyCall
  cases body with
  | ok a => exact ⟨rfl, rfl⟩
  | exc e => cases h : replyCall (msgErrHead ++ e) <;> simp [send_try_except, h]

/-- Claim C2.  A document attachment is accepted exactly when its declared
mime type contains the substring video or its file name passes the
video-extension check; when validation fails the handler sends exactly one
rejection reply, starts no job, touches no file, and the conversation ends,
so the user leaves the waiting state and any later media message without a
new begin command is ignored with no effects at all. -/
theorem C2_document_validation (mt fn : Option String) (env : Env) :
    ((handle_video
        { video := none, document := some { mime_type := mt, file_name := fn } }
        env).jobStarted
      = (strContains (mt.getD "") "video" || fname_looks_like_video (fn.getD "")))
    ∧ ((strContains (mt.getD "") "video" || fname_looks_like_video (fn.getD "")) = false →
        handle_video
            { video := none, document := some { mime_type := mt, file_name := fn } }
            env =
          { effects := [Eff.reply msgRejectDoc]
            inFile := false
            outFile := false
            jobStarted := false }
        ∧ stepUser (some WAITING_FILE)
            (Event.media
              { video := none, document := some { mime_type := mt, file_name := fn } }
              env)
          = (none, [Eff.reply msgRejectDoc], false))
    ∧ (∀ (m2 : Msg) (e2 : Env), stepUser none (Event.media m2 e2) = (none, [], false)) := by
  refine ⟨?_, ?_, fun _ _ => rfl⟩
  · cases hc : (strContains (mt.getD "") "video" || fname_looks_like_video (fn.getD "")) with
    | false => simp [handle_video, hc]
    | true => simp [handle_video, hc, handleAccepted_jobStarted]
  · intro hc
    exact ⟨by simp [handle_video, hc], by simp [stepUser, handle_video, hc]⟩

/-- Witness for claim C2: a pdf document fails validation, is answered with
the single rejection reply, and the conversation state is cleared. -/
theorem C2_document_validation_witness :
    (strContains "application/pdf" "video" || fname_looks_like_video "file.pdf") = false
    ∧ handle_video c2Doc baseEnv =
        { effects := [Eff.reply msgRejectDoc]
          inFile := false
          outFile := false
          jobStarted := false }
    ∧ stepUser (some WAITING_FILE) (Event.media c2Doc baseEnv)
        = (none, [Eff.reply msgRejectDoc], false) := by
  have hc : (strContains ((some "application/pdf").getD "") "video" ||
      fname_looks_like_video ((some "file.pdf").getD "")) = false := by decide
  have h := (C2_document_validation (some "application/pdf") (some "file.pdf") baseEnv).2.1 hc
  exact ⟨hc, h.1, h.2⟩

/-- Claim C6.  When the encode subprocess exits non-zero and the captured
diagnostic text is longer than 1000 characters, the handler edits the status
to the generic failure message and separately replies with the diagnostic
head whose diagnostic portion is the first 1000 characters of the text,
hence at most 1000 characters long. -/
theorem C6_stderr_truncated_to_1000 (fname stderr : String) (rc : Int) (env : Env)
    (hlen : 1000 < stderr.length) (hrc : rc ≠ 0) :
    handle_video { video := some { file_name := some fname }, document := none }
        { env with download := none, encode := EncodeOutcome.finished rc stderr } =
      { effects := [Eff.reply msgDownloading,
          Eff.downloadTo
            (inPathOf { env with download := none, encode := EncodeOutcome.finished rc stderr }
              fname),
          Eff.editStatus msgEncodingStarted, Eff.editStatus msgEncodeFailed,
          Eff.reply (msgFfmpegErrHead ++ String.mk (stderr.data.take 1000))]
        inFile := false
        outFile := env.encodeWroteOut
        jobStarted := true }
    ∧ (String.mk (stderr.data.take 1000)).length ≤ 1000 := by
  have hlen2 : 1000 < stderr.data.length := hlen
  have hs : String.mk (stderr.data.take 1000) ≠ "" := by
    intro h
    have h2 : stderr.data.take 1000 = ([] : List Char) := congrArg String.data h
    have h3 : (stderr.data.take 1000).length = 0 := by rw [h2]; rfl
    rw [List.length_take] at h3
    omega
  constructor
  · simp [handle_video, handleAccepted, hrc, hs]
  · exact List.length_take_le 1000 stderr.data

/-- Witness for claim C6: a 1001-character diagnostic with exit code one is
answered with its first 1000 characters. -/
theorem C6_stderr_truncated_to_1000_witness :
    (1000 < c6Stderr.length) ∧ ((1 : Int) ≠ 0)
    ∧ (handle_video { video := some { file_name := some "a.mp4" }, document := none }
          { baseEnv with download := none, encode := EncodeOutcome.finished 1 c6Stderr } =
        { effects := [Eff.reply msgDownloading,
            Eff.downloadTo
              (inPathOf
                { baseEnv with download := none, encode := EncodeOutcome.finished 1 c6Stderr }
                "a.mp4"),
            Eff.editStatus msgEncodingStarted, Eff.editStatus msgEncodeFailed,
            Eff.reply (msgFfmpegErrHead ++ String.mk (c6Stderr.data.take 1000))]
          inFile := false
          outFile := baseEnv.encodeWroteOut
          jobStarted := true }
       ∧ (String.mk (c6Stderr.data.take 1000)).length ≤ 1000) := by
  have h1 : 1000 < c6Stderr.length := by norm_num [c6Stderr, String.length]
  have h2 : (1 : Int) ≠ 0 := by decide
  exact ⟨h1, h2, C6_stderr_truncated_to_1000 "a.mp4" c6Stderr 1 baseEnv h1 h2⟩

/-- Claim C9.  For an incoming file named a.mp4, the output name is the stem
a with the suffix _encoded.mp4 appended, and only afterwards is the random
identifier prefixed to that basename to form the on-disk name in the
scratch directory. -/
theorem C9_output_name_then_randomize :
    outNameOf "a.mp4" = "a_encoded.mp4"
    ∧ (∀ (u : String), safe_filename u (outNameOf "a.mp4") = u ++ "_" ++ "a_encoded.mp4")
    ∧ (∀ (env : Env),
        outPathOf env "a.mp4" = pyJoin env.tmpDir (env.uuidOut ++ "_" ++ "a_encoded.mp4")) :=
  ⟨by decide, fun _ => rfl, fun _ => rfl⟩

/-- Claim C10.  A document is accepted exactly when its declared mime type
contains the substring video or, failing that, when its lower-cased file
name ends in one of the seven video extensions; with no declared mime type
the decision is exactly the extension check. -/
theorem C10_mime_substring_or_extension (mime name : String) (env : Env) :
    ((handle_video
        { video := none,
          document := some { mime_type := some mime, file_name := some name } }
        env).jobStarted
      = (strContains mime "video" || fname_looks_like_video name))
    ∧ ((handle_video
        { video := none,
          document := some { mime_type := none, file_name := some name } }
        env).jobStarted
      = fname_looks_like_video name) := by
  constructor
  · cases hc : (strContains mime "video" || fname_looks_like_video name) with
    | false => simp [handle_video, hc]
    | true => simp [handle_video, hc, handleAccepted_jobStarted]
  · cases hc : fname_looks_like_video name with
    | false => simp [handle_video, strContains, hc, isSubListB, isPrefixB]
    | true => simp [handle_video, strContains, hc, handleAccepted_jobStarted]

end EncodingBot
